import Mathlib

/-!
# Cozy Comfort backend — inventory transfer engine, shallow embedding

A shallow embedding of the service layer of the `cozy-comfort-backend`
repository (`app/services/manufacturer_service.py`,
`app/services/distributor_service.py`, `app/services/seller_service.py`,
and the seller controller's `customer_purchase` pre-checks).

Modelling conventions:
* Database tables become lists of records inside a `DB` structure; a
  SQLAlchemy `query(...).filter(...).first()` becomes `List.find?`, and an
  in-place mutation of the found row becomes `updateFirst` (update of the
  first matching element).
* Python `int` columns become `Int` (Python integers are unbounded; the
  schemas place no range constraint on any quantity field).
* `float` prices and totals become `Rat` (exact arithmetic stands in for
  floating point; the 0.01 tolerance of `process_customer_order` is the
  exact rational 1/100).
* Auto-generated ids and timestamps of journal rows are omitted: no claim
  depends on them, only on the rows' payloads and on how many rows exist.
* Sessions are created with `autocommit=False` (`app/core/database.py`) and
  closed by `get_db` after each request, so an operation that raises before
  `db.commit()` leaves the persistent state untouched.  Operations are
  therefore embedded as `DB → Except String (result × DB)`: the `.ok` state
  is the committed state, and `.error` means the transaction was rolled
  back, i.e. the old state survives.
-/

/-- `AvailabilityStatus` from `app/models/seller_model.py`. -/
inductive AvailabilityStatus where
  | IN_STOCK
  | OUT_OF_STOCK
deriving DecidableEq, Repr

/-- `Blanket` from `app/models/manufacturer_model.py` (image url omitted). -/
structure Blanket where
  id : Nat
  model_name : String
  material : String
  stock : Int
  production_capacity : Int
deriving DecidableEq, Repr

/-- `DistributorStock` from `app/models/distributor_model.py`. -/
structure DistributorStock where
  distributor_name : String
  blanket_id : Nat
  quantity : Int
deriving DecidableEq, Repr

/-- `DistributorOrder` journal row (id and order_date omitted). -/
structure DistributorOrder where
  distributor_id : Nat
  blanket_id : Nat
  quantity : Int
deriving DecidableEq, Repr

/-- `SellerInventory` from `app/models/seller_model.py`. -/
structure SellerInventory where
  seller_name : String
  blanket_id : Nat
  quantity : Int
deriving DecidableEq, Repr

/-- `SellerOrder` journal row (id and purchase_date omitted). -/
structure SellerOrder where
  seller_id : Nat
  distributor_id : Nat
  blanket_id : Nat
  quantity : Int
deriving DecidableEq, Repr

/-- `CustomerOrder` journal row (id omitted). -/
structure CustomerOrder where
  customer_name : String
  seller_name : String
  blanket_id : Nat
  quantity : Int
  status : String
  total_value : Option Rat
deriving DecidableEq, Repr

/-- `ProductForSale` from `app/models/seller_model.py` (timestamps omitted). -/
structure ProductForSale where
  seller_id : Nat
  blanket_id : Nat
  price : Rat
  quantity : Int
  availability : AvailabilityStatus
deriving DecidableEq, Repr

/-- `User` from `app/models/user_model.py` (credential fields omitted). -/
structure User where
  id : Nat
  username : String
  role : String
deriving DecidableEq, Repr

/-- The persistent store: one list per table touched by the transfer engine. -/
structure DB where
  blankets : List Blanket
  distributor_stocks : List DistributorStock
  distributor_orders : List DistributorOrder
  seller_inventories : List SellerInventory
  seller_orders : List SellerOrder
  customer_orders : List CustomerOrder
  products_for_sale : List ProductForSale
  users : List User
deriving DecidableEq, Repr

/-- Update the first element satisfying `p` (SQLAlchemy: mutate the row
returned by `.first()`; all tables involved carry uniqueness constraints,
so at most one row matches anyway). -/
def updateFirst (p : α → Bool) (f : α → α) : List α → List α
  | [] => []
  | x :: xs => if p x then f x :: xs else x :: updateFirst p f xs

/-- Pydantic `DistributorStockCreate` (`app/schemas/distributor_schema.py`):
both fields are plain unconstrained `int`s. -/
structure DistributorStockCreate where
  blanket_id : Nat
  quantity : Int
deriving DecidableEq, Repr

/-- Pydantic `StockRequest` (`app/schemas/seller_schema.py`). -/
structure StockRequest where
  seller_name : String
  blanket_id : Nat
  quantity : Int
deriving DecidableEq, Repr

/-- Pydantic `ProductForSaleCreate` (`app/schemas/seller_schema.py`): the
`availability` field is optional with default `IN_STOCK`. -/
structure ProductForSaleCreate where
  blanket_id : Nat
  price : Rat
  availability : AvailabilityStatus := AvailabilityStatus.IN_STOCK
deriving DecidableEq, Repr

/-- Pydantic `CustomerPurchase` (`app/schemas/seller_schema.py`). -/
structure CustomerPurchase where
  customer_name : String
  seller_name : String
  blanket_id : Nat
  quantity : Int
  total_value : Option Rat := none
deriving DecidableEq, Repr

/-- Result dictionary of `process_distributor_order` (order_id omitted). -/
structure DistributorOrderResult where
  manufacturer_remaining_stock : Int
  distributor_stock : Int
  processed_quantity : Int
deriving DecidableEq, Repr

/-- Result dictionary of `process_seller_order` (seller_order_id omitted). -/
structure SellerOrderResult where
  distributor_remaining_stock : Int
  seller_inventory : Int
  processed_quantity : Int
deriving DecidableEq, Repr

/-- Result dictionary of `process_customer_order`. -/
structure CustomerOrderResult where
  seller_remaining_inventory : Int
  customer_order : CustomerOrder
  processed_quantity : Int
deriving DecidableEq, Repr

/-- Result dictionary of the availability-check helpers. -/
structure CheckResult where
  available : Bool
  current_stock : Int
  message : String
deriving DecidableEq, Repr

/-! ## Queries (read helpers shared by the services) -/

/-- `db.query(Blanket).filter(Blanket.id == blanket_id).first()`. -/
def findBlanket (db : DB) (blanket_id : Nat) : Option Blanket :=
  db.blankets.find? (fun b => b.id == blanket_id)

/-- `db.query(DistributorStock).filter(name == ..., blanket_id == ...).first()`. -/
def findDistributorStock (db : DB) (distributor_name : String) (blanket_id : Nat) :
    Option DistributorStock :=
  db.distributor_stocks.find?
    (fun s => s.distributor_name == distributor_name && s.blanket_id == blanket_id)

/-- `db.query(SellerInventory).filter(seller_name == ..., blanket_id == ...).first()`. -/
def findSellerInventory (db : DB) (seller_name : String) (blanket_id : Nat) :
    Option SellerInventory :=
  db.seller_inventories.find?
    (fun i => i.seller_name == seller_name && i.blanket_id == blanket_id)

/-- `db.query(User).filter(User.username == name).first()`. -/
def findUser (db : DB) (username : String) : Option User :=
  db.users.find? (fun u => u.username == username)

/-- `db.query(ProductForSale).filter(seller_id == ..., blanket_id == ...).first()`. -/
def findProductForSale (db : DB) (seller_id : Nat) (blanket_id : Nat) :
    Option ProductForSale :=
  db.products_for_sale.find?
    (fun p => p.seller_id == seller_id && p.blanket_id == blanket_id)

/-- Producer-side balance for a product: the blanket row's `stock`
(0 when the product does not exist). -/
def blanketStockOf (db : DB) (blanket_id : Nat) : Int :=
  ((findBlanket db blanket_id).map (fun b => b.stock)).getD 0

/-- Distributor-side balance (0 when the record is absent). -/
def distStockOf (db : DB) (distributor_name : String) (blanket_id : Nat) : Int :=
  ((findDistributorStock db distributor_name blanket_id).map
    (fun s => s.quantity)).getD 0

/-- Seller-side balance (0 when the record is absent). -/
def sellerInvOf (db : DB) (seller_name : String) (blanket_id : Nat) : Int :=
  ((findSellerInventory db seller_name blanket_id).map
    (fun i => i.quantity)).getD 0

/-! ## Manufacturer service (`app/services/manufacturer_service.py`) -/

/-- `update_blanket_stock` (lines 41-48): sets the blanket's stock to the
given value with no sign check; returns `none` if the blanket is unknown. -/
def update_blanket_stock (db : DB) (blanket_id : Nat) (quantity : Int) : Option DB :=
  match findBlanket db blanket_id with
  | none => none
  | some _ =>
      some { db with
        blankets := updateFirst (fun b => b.id == blanket_id)
          (fun b => { b with stock := quantity }) db.blankets }

/-- `process_distributor_order` (lines 68-123): the Producer→Distributor
transfer.  Checks producer stock, debits it, credits (or creates) the
distributor's stock record, and appends one `DistributorOrder` journal row. -/
def process_distributor_order (db : DB) (blanket_id : Nat) (quantity : Int)
    (distributor_name : String) (user : User) :
    Except String (DistributorOrderResult × DB) :=
  match findBlanket db blanket_id with
  | none => .error "Blanket not found"
  | some blanket =>
    if blanket.stock < quantity then
      .error ("Insufficient manufacturer stock. Available: " ++ toString blanket.stock
        ++ ", Requested: " ++ toString quantity)
    else
      let db1 := { db with
        blankets := updateFirst (fun b => b.id == blanket_id)
          (fun b => { b with stock := b.stock - quantity }) db.blankets }
      let newDistQty :=
        match findDistributorStock db1 distributor_name blanket_id with
        | some s => s.quantity + quantity
        | none => quantity
      let db2 : DB :=
        match findDistributorStock db1 distributor_name blanket_id with
        | some _ => { db1 with
            distributor_stocks := updateFirst
              (fun s => s.distributor_name == distributor_name && s.blanket_id == blanket_id)
              (fun s => { s with quantity := s.quantity + quantity })
              db1.distributor_stocks }
        | none => { db1 with
            distributor_stocks := db1.distributor_stocks ++
              [{ distributor_name := distributor_name, blanket_id := blanket_id,
                 quantity := quantity }] }
      let db3 := { db2 with
        distributor_orders := db2.distributor_orders ++
          [{ distributor_id := user.id, blanket_id := blanket_id, quantity := quantity }] }
      .ok ({ manufacturer_remaining_stock := blanket.stock - quantity,
             distributor_stock := newDistQty,
             processed_quantity := quantity }, db3)

/-- `check_stock_availability` (lines 126-139): read-only pre-flight check. -/
def check_stock_availability (db : DB) (blanket_id : Nat) (required_quantity : Int) :
    CheckResult :=
  match findBlanket db blanket_id with
  | none => { available := false, current_stock := 0, message := "Blanket not found" }
  | some blanket =>
    if blanket.stock >= required_quantity then
      ({ available := true, current_stock := blanket.stock,
         message := "Stock available" } : CheckResult)
    else
      ({ available := false, current_stock := blanket.stock,
         message := "Insufficient stock. Available: " ++ toString blanket.stock
           ++ ", Required: " ++ toString required_quantity } : CheckResult)

/-! ## Seller service, part 1: listing sync
(`app/services/seller_service.py`, needed by the distributor service) -/

/-- `sync_product_quantity_with_inventory` (seller_service lines 390-426):
overwrites the listing's quantity with the seller's current inventory
quantity and recomputes availability.  Note the exact availability rule of
the source: `OUT_OF_STOCK` whenever the inventory is zero, and any listing
that is currently `OUT_OF_STOCK` while the inventory is positive is set
back to `IN_STOCK`. -/
def sync_product_quantity_with_inventory (db : DB) (seller_username : String)
    (blanket_id : Nat) : Except String DB :=
  match findUser db seller_username with
  | none => .error ("Seller " ++ seller_username ++ " not found")
  | some seller =>
    match findSellerInventory db seller_username blanket_id with
    | none => .error ("No inventory found for blanket " ++ toString blanket_id)
    | some inv =>
      match findProductForSale db seller.id blanket_id with
      | none => .error ("No product for sale found for blanket " ++ toString blanket_id)
      | some product =>
        let newAvailability : AvailabilityStatus :=
          if inv.quantity == 0 then .OUT_OF_STOCK
          else if product.availability == .OUT_OF_STOCK && inv.quantity > 0 then .IN_STOCK
          else product.availability
        .ok { db with
          products_for_sale := updateFirst
            (fun p => p.seller_id == seller.id && p.blanket_id == blanket_id)
            (fun p => { p with quantity := inv.quantity,
                               availability := newAvailability })
            db.products_for_sale }

/-- The `try: sync ... except ValueError: pass` pattern: attempt the listing
resync and keep the already-committed state when it fails. -/
def trySyncProduct (db : DB) (seller_username : String) (blanket_id : Nat) : DB :=
  match sync_product_quantity_with_inventory db seller_username blanket_id with
  | .ok db2 => db2
  | .error _ => db

/-! ## Distributor service (`app/services/distributor_service.py`) -/

/-- `update_distributor_stock` (lines 95-113): create-or-overwrite of the
calling distributor's stock record; the supplied quantity is stored as-is,
with no sign or overdraft check. -/
def update_distributor_stock (db : DB) (data : DistributorStockCreate) (user : User) :
    DB :=
  match findDistributorStock db user.username data.blanket_id with
  | some _ => { db with
      distributor_stocks := updateFirst
        (fun s => s.distributor_name == user.username && s.blanket_id == data.blanket_id)
        (fun s => { s with quantity := data.quantity })
        db.distributor_stocks }
  | none => { db with
      distributor_stocks := db.distributor_stocks ++
        [{ distributor_name := user.username, blanket_id := data.blanket_id,
           quantity := data.quantity }] }

/-- `process_seller_order` (lines 116-193): the Distributor→Seller transfer.
Checks both users exist, checks distributor stock, debits it, credits (or
creates) the seller's inventory record, appends one `SellerOrder` journal
row, commits, and then attempts the listing resync with failures
swallowed. -/
def process_seller_order (db : DB) (blanket_id : Nat) (quantity : Int)
    (distributor_name : String) (seller_name : String) :
    Except String (SellerOrderResult × DB) :=
  match findUser db seller_name with
  | none => .error ("Seller " ++ seller_name ++ " not found")
  | some seller_user =>
    match findUser db distributor_name with
    | none => .error ("Distributor " ++ distributor_name ++ " not found")
    | some distributor_user =>
      match findDistributorStock db distributor_name blanket_id with
      | none => .error ("No stock found for distributor " ++ distributor_name
          ++ " and blanket " ++ toString blanket_id)
      | some distributor_stock =>
        if distributor_stock.quantity < quantity then
          .error ("Insufficient distributor stock. Available: "
            ++ toString distributor_stock.quantity
            ++ ", Requested: " ++ toString quantity)
        else
          let db1 := { db with
            distributor_stocks := updateFirst
              (fun s => s.distributor_name == distributor_name && s.blanket_id == blanket_id)
              (fun s => { s with quantity := s.quantity - quantity })
              db.distributor_stocks }
          let newSellerQty :=
            match findSellerInventory db1 seller_name blanket_id with
            | some i => i.quantity + quantity
            | none => quantity
          let db2 : DB :=
            match findSellerInventory db1 seller_name blanket_id with
            | some _ => { db1 with
                seller_inventories := updateFirst
                  (fun i => i.seller_name == seller_name && i.blanket_id == blanket_id)
                  (fun i => { i with quantity := i.quantity + quantity })
                  db1.seller_inventories }
            | none => { db1 with
                seller_inventories := db1.seller_inventories ++
                  [{ seller_name := seller_name, blanket_id := blanket_id,
                     quantity := quantity }] }
          let db3 := { db2 with
            seller_orders := db2.seller_orders ++
              [{ seller_id := seller_user.id, distributor_id := distributor_user.id,
                 blanket_id := blanket_id, quantity := quantity }] }
          let db4 := trySyncProduct db3 seller_name blanket_id
          .ok ({ distributor_remaining_stock := distributor_stock.quantity - quantity,
                 seller_inventory := newSellerQty,
                 processed_quantity := quantity }, db4)

/-- `check_distributor_stock_availability` (lines 196-213): read-only. -/
def check_distributor_stock_availability (db : DB) (distributor_name : String)
    (blanket_id : Nat) (required_quantity : Int) : CheckResult :=
  match findDistributorStock db distributor_name blanket_id with
  | none => { available := false, current_stock := 0,
              message := "No stock found for this distributor and blanket" }
  | some stock =>
    if stock.quantity >= required_quantity then
      ({ available := true, current_stock := stock.quantity,
         message := "Stock available" } : CheckResult)
    else
      ({ available := false, current_stock := stock.quantity,
         message := "Insufficient stock. Available: " ++ toString stock.quantity
           ++ ", Required: " ++ toString required_quantity } : CheckResult)

/-! ## Seller service, part 2 (`app/services/seller_service.py`) -/

/-- `request_stock_from_distributor` (lines 35-61): adds the requested
quantity to the seller's inventory (creating the record if absent), then
attempts the listing resync with failures swallowed. -/
def request_stock_from_distributor (db : DB) (data : StockRequest) : DB :=
  let db1 : DB :=
    match findSellerInventory db data.seller_name data.blanket_id with
    | some _ => { db with
        seller_inventories := updateFirst
          (fun i => i.seller_name == data.seller_name && i.blanket_id == data.blanket_id)
          (fun i => { i with quantity := i.quantity + data.quantity })
          db.seller_inventories }
    | none => { db with
        seller_inventories := db.seller_inventories ++
          [{ seller_name := data.seller_name, blanket_id := data.blanket_id,
             quantity := data.quantity }] }
  trySyncProduct db1 data.seller_name data.blanket_id

/-- The guard of seller_service lines 132-134: the caller-supplied total is
rejected exactly when both a provided and a calculated total exist and they
differ by more than the 0.01 tolerance. -/
def totalMismatch (provided calculated : Option Rat) : Bool :=
  match provided, calculated with
  | some p, some c => decide (abs (p - c) > (1 : Rat) / 100)
  | _, _ => false

/-- `process_customer_order` (lines 94-165): the Seller→Customer transfer.
The source decrements the inventory in the session, looks up the listing
price, validates a caller-supplied total against `price * quantity` with
absolute tolerance 0.01, appends the `CustomerOrder` row and only then
commits; a `ValueError` raised at the total check aborts the uncommitted
transaction, so the `.error` branch carries no state.  After the commit the
listing resync is attempted with failures swallowed. -/
def process_customer_order (db : DB) (blanket_id : Nat) (quantity : Int)
    (seller_name : String) (customer_name : String)
    (current_user : Option User := none) (provided_total_value : Option Rat := none) :
    Except String (CustomerOrderResult × DB) :=
  match findSellerInventory db seller_name blanket_id with
  | none => .error ("No inventory found for seller " ++ seller_name
      ++ " and blanket " ++ toString blanket_id)
  | some seller_inventory =>
    if seller_inventory.quantity < quantity then
      .error ("Insufficient seller inventory. Available: "
        ++ toString seller_inventory.quantity ++ ", Requested: " ++ toString quantity)
    else
      let db1 := { db with
        seller_inventories := updateFirst
          (fun i => i.seller_name == seller_name && i.blanket_id == blanket_id)
          (fun i => { i with quantity := i.quantity - quantity })
          db.seller_inventories }
      let status := match current_user with
        | some u => if u.role == "seller" then "completed" else "pending"
        | none => "pending"
      let product : Option ProductForSale :=
        match findUser db1 seller_name with
        | some seller => findProductForSale db1 seller.id blanket_id
        | none => none
      let calculated_total_value : Option Rat :=
        product.map (fun p => p.price * quantity)
      if totalMismatch provided_total_value calculated_total_value then
        .error ("Total value mismatch. Expected: "
          ++ toString (calculated_total_value.getD 0)
          ++ ", Provided: " ++ toString (provided_total_value.getD 0))
      else
        let customer_order : CustomerOrder :=
          { customer_name := customer_name, seller_name := seller_name,
            blanket_id := blanket_id, quantity := quantity,
            status := status, total_value := calculated_total_value }
        let db2 := { db1 with customer_orders := db1.customer_orders ++ [customer_order] }
        let db3 := trySyncProduct db2 seller_name blanket_id
        .ok ({ seller_remaining_inventory := seller_inventory.quantity - quantity,
               customer_order := customer_order,
               processed_quantity := quantity }, db3)

/-- `check_seller_inventory_availability` (lines 168-185): read-only. -/
def check_seller_inventory_availability (db : DB) (seller_name : String)
    (blanket_id : Nat) (required_quantity : Int) : CheckResult :=
  match findSellerInventory db seller_name blanket_id with
  | none => { available := false, current_stock := 0,
              message := "No inventory found for this seller and blanket" }
  | some inv =>
    if inv.quantity >= required_quantity then
      ({ available := true, current_stock := inv.quantity,
         message := "Inventory available" } : CheckResult)
    else
      ({ available := false, current_stock := inv.quantity,
         message := "Insufficient inventory. Available: " ++ toString inv.quantity
           ++ ", Required: " ++ toString required_quantity } : CheckResult)

/-- `create_product_for_sale` (lines 272-312): publish a product.  The
listing's quantity is copied from the seller's inventory record and the
availability is derived from that quantity; the `availability` field of the
payload is never read. -/
def create_product_for_sale (db : DB) (seller_username : String)
    (data : ProductForSaleCreate) : Except String (ProductForSale × DB) :=
  match findUser db seller_username with
  | none => .error ("Seller " ++ seller_username ++ " not found")
  | some seller =>
    match findSellerInventory db seller_username data.blanket_id with
    | none => .error ("No inventory found for blanket " ++ toString data.blanket_id)
    | some seller_inventory =>
      match findProductForSale db seller.id data.blanket_id with
      | some _ => .error ("Product for blanket " ++ toString data.blanket_id
          ++ " already exists")
      | none =>
        let availability : AvailabilityStatus :=
          if seller_inventory.quantity > 0 then .IN_STOCK else .OUT_OF_STOCK
        let product : ProductForSale :=
          { seller_id := seller.id, blanket_id := data.blanket_id,
            price := data.price, quantity := seller_inventory.quantity,
            availability := availability }
        .ok (product, { db with products_for_sale := db.products_for_sale ++ [product] })

/-- `get_product_for_sale_by_seller_and_blanket` (lines 377-387). -/
def get_product_for_sale_by_seller_and_blanket (db : DB) (seller_name : String)
    (blanket_id : Nat) : Option ProductForSale :=
  match findUser db seller_name with
  | none => none
  | some seller => findProductForSale db seller.id blanket_id

/-! ## Seller controller (`app/controllers/seller_controller.py`) -/

/-- `customer_purchase` (controller lines 133-176): the pre-checks guarding
`process_customer_order`.  Rejects when no listing exists, when the listing
is `OUT_OF_STOCK`, or when the listing's quantity is below the request, all
before any service call. -/
def customer_purchase (db : DB) (data : CustomerPurchase) (user : User) :
    Except String (CustomerOrderResult × DB) :=
  match get_product_for_sale_by_seller_and_blanket db data.seller_name data.blanket_id with
  | none => .error ("Product with blanket ID " ++ toString data.blanket_id
      ++ " is not available for sale by " ++ data.seller_name
      ++ ". Seller must add it to products for sale first.")
  | some product_for_sale =>
    if product_for_sale.availability == .OUT_OF_STOCK then
      .error "Product is currently out of stock"
    else if product_for_sale.quantity < data.quantity then
      .error ("Insufficient quantity available. Available: "
        ++ toString product_for_sale.quantity
        ++ ", Requested: " ++ toString data.quantity)
    else
      process_customer_order db data.blanket_id data.quantity data.seller_name
        data.customer_name (some user) data.total_value

/-! ## Engine operations as a step relation

One request-driven step of the engine: each constructor is one service
call.  `applyOp` runs the call against the committed state; a call that
raises (`Except.error`) leaves the committed state unchanged, because the
session is never committed and is closed (rolled back) by `get_db`. -/

inductive EngineOp where
  | producerTransfer (blanket_id : Nat) (quantity : Int)
      (distributor_name : String) (user : User)
  | distributorTransfer (blanket_id : Nat) (quantity : Int)
      (distributor_name seller_name : String)
  | customerTransfer (blanket_id : Nat) (quantity : Int)
      (seller_name customer_name : String)
      (current_user : Option User) (provided_total_value : Option Rat)
  | blanketStockUpdate (blanket_id : Nat) (quantity : Int)
  | distributorStockUpdate (data : DistributorStockCreate) (user : User)
  | inventoryRequest (data : StockRequest)
  | producerCheck (blanket_id : Nat) (required_quantity : Int)
  | distributorCheck (distributor_name : String) (blanket_id : Nat)
      (required_quantity : Int)
  | sellerCheck (seller_name : String) (blanket_id : Nat) (required_quantity : Int)

/-- Committed state after one engine call. -/
def applyOp (db : DB) : EngineOp → DB
  | .producerTransfer bid q dn u =>
      match process_distributor_order db bid q dn u with
      | .ok (_, db2) => db2
      | .error _ => db
  | .distributorTransfer bid q dn sn =>
      match process_seller_order db bid q dn sn with
      | .ok (_, db2) => db2
      | .error _ => db
  | .customerTransfer bid q sn cn cu pt =>
      match process_customer_order db bid q sn cn cu pt with
      | .ok (_, db2) => db2
      | .error _ => db
  | .blanketStockUpdate bid q => (update_blanket_stock db bid q).getD db
  | .distributorStockUpdate data u => update_distributor_stock db data u
  | .inventoryRequest data => request_stock_from_distributor db data
  | .producerCheck bid q =>
      match check_stock_availability db bid q with
      | _ => db
  | .distributorCheck dn bid q =>
      match check_distributor_stock_availability db dn bid q with
      | _ => db
  | .sellerCheck sn bid q =>
      match check_seller_inventory_availability db sn bid q with
      | _ => db

/-- Committed state after a sequence of engine calls. -/
def applyOps (db : DB) (ops : List EngineOp) : DB :=
  ops.foldl applyOp db

/-- The quantity carried by an operation is nonnegative (checks carry no
mutating quantity, so they impose nothing). -/
def EngineOp.nonNegQuantity : EngineOp → Prop
  | .producerTransfer _ q _ _ => 0 ≤ q
  | .distributorTransfer _ q _ _ => 0 ≤ q
  | .customerTransfer _ q _ _ _ _ => 0 ≤ q
  | .blanketStockUpdate _ q => 0 ≤ q
  | .distributorStockUpdate data _ => 0 ≤ data.quantity
  | .inventoryRequest data => 0 ≤ data.quantity
  | .producerCheck _ _ => True
  | .distributorCheck _ _ _ => True
  | .sellerCheck _ _ _ => True

instance (op : EngineOp) : Decidable op.nonNegQuantity := by
  cases op <;> simp only [EngineOp.nonNegQuantity] <;> infer_instance

/-- All stock-ledger records (producer blanket stock, distributor stock,
seller inventory) are nonnegative. -/
def NonNegDB (db : DB) : Prop :=
  (∀ b ∈ db.blankets, 0 ≤ b.stock) ∧
  (∀ s ∈ db.distributor_stocks, 0 ≤ s.quantity) ∧
  (∀ i ∈ db.seller_inventories, 0 ≤ i.quantity)

instance (db : DB) : Decidable (NonNegDB db) := by
  unfold NonNegDB; infer_instance

/-! ## List helper lemmas -/

theorem find?_updateFirst {α} {p : α → Bool} {f : α → α}
    (hpf : ∀ a, p a = true → p (f a) = true) :
    ∀ l : List α, (updateFirst p f l).find? p = (l.find? p).map f := by
  intro l
  induction l with
  | nil => rfl
  | cons x xs ih =>
    by_cases hx : p x = true
    · simp [updateFirst, hx, List.find?_cons_of_pos, hpf x hx]
    · have hx' : p x = false := by simpa using hx
      simp [updateFirst, hx', List.find?_cons_of_neg, ih]

theorem updateFirst_forall {α} {p : α → Bool} {f : α → α} {Q : α → Prop} :
    ∀ {l : List α}, (∀ a ∈ l, Q a) → (∀ b, l.find? p = some b → Q (f b)) →
    ∀ a ∈ updateFirst p f l, Q a := by
  intro l
  induction l with
  | nil => intro _ _ a ha; simp [updateFirst] at ha
  | cons x xs ih =>
    intro hall hfind a ha
    by_cases hx : p x = true
    · rw [updateFirst, if_pos hx] at ha
      rcases List.mem_cons.mp ha with h | h
      · subst h
        exact hfind x (by simp [List.find?_cons_of_pos, hx])
      · exact hall a (List.mem_cons_of_mem _ h)
    · have hx' : p x = false := by simpa using hx
      rw [updateFirst, if_neg (by simp [hx'])] at ha
      rcases List.mem_cons.mp ha with h | h
      · subst h; exact hall a (List.mem_cons_self _ _)
      · exact ih (fun b hb => hall b (List.mem_cons_of_mem _ hb))
          (fun b hb => hfind b (by simp [List.find?_cons_of_neg, hx', hb])) a h

theorem find?_append_of_none {α} {p : α → Bool} {l₁ l₂ : List α}
    (h : l₁.find? p = none) : (l₁ ++ l₂).find? p = l₂.find? p := by
  induction l₁ with
  | nil => simp
  | cons x xs ih =>
    have hx : p x = false := by
      cases hpx : p x with
      | false => rfl
      | true => simp [List.find?_cons_of_pos, hpx] at h
    have h' : xs.find? p = none := by
      rw [List.find?_cons_of_neg _ (by simp [hx])] at h
      exact h
    rw [List.cons_append, List.find?_cons_of_neg _ (by simp [hx]), ih h']

/-! ## Frame lemmas for the listing resync -/

theorem sync_ok_tables {db db' : DB} {s : String} {b : Nat}
    (h : sync_product_quantity_with_inventory db s b = .ok db') :
    db'.blankets = db.blankets ∧ db'.distributor_stocks = db.distributor_stocks ∧
    db'.distributor_orders = db.distributor_orders ∧
    db'.seller_inventories = db.seller_inventories ∧
    db'.seller_orders = db.seller_orders ∧
    db'.customer_orders = db.customer_orders ∧
    db'.users = db.users := by
  unfold sync_product_quantity_with_inventory at h
  split at h
  · exact Except.noConfusion h
  · split at h
    · exact Except.noConfusion h
    · split at h
      · exact Except.noConfusion h
      · injection h with h
        subst h
        exact ⟨rfl, rfl, rfl, rfl, rfl, rfl, rfl⟩

theorem trySync_tables (db : DB) (s : String) (b : Nat) :
    (trySyncProduct db s b).blankets = db.blankets ∧
    (trySyncProduct db s b).distributor_stocks = db.distributor_stocks ∧
    (trySyncProduct db s b).distributor_orders = db.distributor_orders ∧
    (trySyncProduct db s b).seller_inventories = db.seller_inventories ∧
    (trySyncProduct db s b).seller_orders = db.seller_orders ∧
    (trySyncProduct db s b).customer_orders = db.customer_orders ∧
    (trySyncProduct db s b).users = db.users := by
  unfold trySyncProduct
  split
  · rename_i db2 hok
    exact sync_ok_tables hok
  · exact ⟨rfl, rfl, rfl, rfl, rfl, rfl, rfl⟩

theorem nonNeg_of_tables {db db' : DB}
    (hb : db'.blankets = db.blankets)
    (hd : db'.distributor_stocks = db.distributor_stocks)
    (hs : db'.seller_inventories = db.seller_inventories)
    (h : NonNegDB db) : NonNegDB db' := by
  unfold NonNegDB at h ⊢
  rw [hb, hd, hs]
  exact h

/-! ## Non-negativity preservation, operation by operation -/

theorem process_distributor_order_nonneg {db : DB} {bid : Nat} {q : Int}
    {dn : String} {u : User} {r : DistributorOrderResult} {db' : DB}
    (hq : 0 ≤ q) (hnn : NonNegDB db)
    (h : process_distributor_order db bid q dn u = .ok (r, db')) :
    NonNegDB db' := by
  obtain ⟨hB, hD, hS⟩ := hnn
  unfold process_distributor_order at h
  split at h
  · exact Except.noConfusion h
  · rename_i blanket hfind
    split at h
    · exact Except.noConfusion h
    · rename_i hge
      push_neg at hge
      injection h with h
      rw [Prod.mk.injEq] at h
      obtain ⟨-, hdb⟩ := h
      subst hdb
      unfold NonNegDB
      have hblankets : ∀ b ∈ updateFirst (fun b => b.id == bid)
          (fun b => { b with stock := b.stock - q }) db.blankets, 0 ≤ b.stock := by
        refine updateFirst_forall hB ?_
        intro b0 hb0
        unfold findBlanket at hfind
        rw [hfind] at hb0
        injection hb0 with hb0
        subst hb0
        simpa using sub_nonneg.mpr hge
      split
      · rename_i s hs
        refine ⟨hblankets, ?_, hS⟩
        intro a ha
        refine updateFirst_forall hD ?_ a ha
        intro s0 hs0
        have hmem := List.mem_of_find?_eq_some hs0
        have := hD s0 hmem
        simpa using add_nonneg this hq
      · refine ⟨hblankets, ?_, hS⟩
        intro a ha
        rcases List.mem_append.mp ha with h1 | h1
        · exact hD a h1
        · rcases List.mem_singleton.mp h1 with rfl
          exact hq

theorem process_seller_order_nonneg {db : DB} {bid : Nat} {q : Int}
    {dn sn : String} {r : SellerOrderResult} {db' : DB}
    (hq : 0 ≤ q) (hnn : NonNegDB db)
    (h : process_seller_order db bid q dn sn = .ok (r, db')) :
    NonNegDB db' := by
  obtain ⟨hB, hD, hS⟩ := hnn
  unfold process_seller_order at h
  split at h
  · exact Except.noConfusion h
  · split at h
    · exact Except.noConfusion h
    · split at h
      · exact Except.noConfusion h
      · rename_i stock hfind
        split at h
        · exact Except.noConfusion h
        · rename_i hge
          push_neg at hge
          injection h with h
          rw [Prod.mk.injEq] at h
          obtain ⟨-, hdb⟩ := h
          subst hdb
          refine nonNeg_of_tables (trySync_tables _ sn bid).1
            (trySync_tables _ sn bid).2.1 (trySync_tables _ sn bid).2.2.2.1 ?_
          unfold NonNegDB
          have hdist : ∀ s ∈ updateFirst
              (fun s => s.distributor_name == dn && s.blanket_id == bid)
              (fun s => { s with quantity := s.quantity - q }) db.distributor_stocks,
              0 ≤ s.quantity := by
            refine updateFirst_forall hD ?_
            intro s0 hs0
            unfold findDistributorStock at hfind
            rw [hfind] at hs0
            injection hs0 with hs0
            subst hs0
            simpa using sub_nonneg.mpr hge
          split
          · rename_i i hi
            refine ⟨hB, hdist, ?_⟩
            intro a ha
            refine updateFirst_forall hS ?_ a ha
            intro i0 hi0
            have hmem := List.mem_of_find?_eq_some hi0
            have := hS i0 hmem
            simpa using add_nonneg this hq
          · refine ⟨hB, hdist, ?_⟩
            intro a ha
            rcases List.mem_append.mp ha with h1 | h1
            · exact hS a h1
            · rcases List.mem_singleton.mp h1 with rfl
              exact hq

theorem process_customer_order_nonneg {db : DB} {bid : Nat} {q : Int}
    {sn cn : String} {cu : Option User} {pt : Option Rat}
    {r : CustomerOrderResult} {db' : DB}
    (_hq : 0 ≤ q) (hnn : NonNegDB db)
    (h : process_customer_order db bid q sn cn cu pt = .ok (r, db')) :
    NonNegDB db' := by
  obtain ⟨hB, hD, hS⟩ := hnn
  unfold process_customer_order at h
  split at h
  · exact Except.noConfusion h
  · rename_i inv hfind
    split at h
    · exact Except.noConfusion h
    · rename_i hge
      push_neg at hge
      have hinvs : ∀ i ∈ updateFirst
          (fun i => i.seller_name == sn && i.blanket_id == bid)
          (fun i => { i with quantity := i.quantity - q }) db.seller_inventories,
          0 ≤ i.quantity := by
        refine updateFirst_forall hS ?_
        intro i0 hi0
        unfold findSellerInventory at hfind
        rw [hfind] at hi0
        injection hi0 with hi0
        subst hi0
        simpa using sub_nonneg.mpr hge
      simp only [] at h
      repeat' split at h
      all_goals first
        | exact Except.noConfusion h
        | (injection h with h
           rw [Prod.mk.injEq] at h
           obtain ⟨-, hdb⟩ := h
           subst hdb
           refine nonNeg_of_tables (trySync_tables _ sn bid).1
             (trySync_tables _ sn bid).2.1 (trySync_tables _ sn bid).2.2.2.1 ?_
           exact ⟨hB, hD, hinvs⟩)

theorem update_blanket_stock_nonneg {db : DB} {bid : Nat} {q : Int} {db' : DB}
    (hq : 0 ≤ q) (hnn : NonNegDB db)
    (h : update_blanket_stock db bid q = some db') : NonNegDB db' := by
  obtain ⟨hB, hD, hS⟩ := hnn
  unfold update_blanket_stock at h
  split at h
  · exact Option.noConfusion h
  · injection h with h
    subst h
    refine ⟨?_, hD, hS⟩
    refine updateFirst_forall hB ?_
    intro b0 _
    exact hq

theorem update_distributor_stock_nonneg {db : DB} {data : DistributorStockCreate}
    {u : User} (hq : 0 ≤ data.quantity) (hnn : NonNegDB db) :
    NonNegDB (update_distributor_stock db data u) := by
  obtain ⟨hB, hD, hS⟩ := hnn
  unfold update_distributor_stock
  split
  · refine ⟨hB, ?_, hS⟩
    refine updateFirst_forall hD ?_
    intro s0 _
    exact hq
  · refine ⟨hB, ?_, hS⟩
    intro a ha
    rcases List.mem_append.mp ha with h1 | h1
    · exact hD a h1
    · rcases List.mem_singleton.mp h1 with rfl
      exact hq

theorem request_stock_from_distributor_nonneg {db : DB} {data : StockRequest}
    (hq : 0 ≤ data.quantity) (hnn : NonNegDB db) :
    NonNegDB (request_stock_from_distributor db data) := by
  obtain ⟨hB, hD, hS⟩ := hnn
  unfold request_stock_from_distributor
  refine nonNeg_of_tables (trySync_tables _ _ _).1
    (trySync_tables _ _ _).2.1 (trySync_tables _ _ _).2.2.2.1 ?_
  unfold NonNegDB
  split
  · rename_i i hi
    refine ⟨hB, hD, ?_⟩
    intro a ha
    refine updateFirst_forall hS ?_ a ha
    intro i0 hi0
    have hmem := List.mem_of_find?_eq_some hi0
    have := hS i0 hmem
    simpa using add_nonneg this hq
  · refine ⟨hB, hD, ?_⟩
    intro a ha
    rcases List.mem_append.mp ha with h1 | h1
    · exact hS a h1
    · rcases List.mem_singleton.mp h1 with rfl
      exact hq

theorem applyOp_nonneg {db : DB} {op : EngineOp}
    (hop : op.nonNegQuantity) (hnn : NonNegDB db) : NonNegDB (applyOp db op) := by
  cases op with
  | producerTransfer bid q dn u =>
    simp only [applyOp]
    split
    · rename_i res db2 hok
      exact process_distributor_order_nonneg hop hnn hok
    · exact hnn
  | distributorTransfer bid q dn sn =>
    simp only [applyOp]
    split
    · rename_i res db2 hok
      exact process_seller_order_nonneg hop hnn hok
    · exact hnn
  | customerTransfer bid q sn cn cu pt =>
    simp only [applyOp]
    split
    · rename_i res db2 hok
      exact process_customer_order_nonneg hop hnn hok
    · exact hnn
  | blanketStockUpdate bid q =>
    simp only [applyOp]
    cases hup : update_blanket_stock db bid q with
    | none => simpa [hup] using hnn
    | some db2 =>
      simpa [hup] using update_blanket_stock_nonneg hop hnn hup
  | distributorStockUpdate data u =>
    exact update_distributor_stock_nonneg hop hnn
  | inventoryRequest data =>
    exact request_stock_from_distributor_nonneg hop hnn
  | producerCheck bid q => exact hnn
  | distributorCheck dn bid q => exact hnn
  | sellerCheck sn bid q => exact hnn

theorem applyOps_nonneg {ops : List EngineOp} :
    ∀ {db : DB}, (∀ op ∈ ops, op.nonNegQuantity) → NonNegDB db →
    NonNegDB (applyOps db ops) := by
  induction ops with
  | nil => intro db _ hnn; exact hnn
  | cons op rest ih =>
    intro db hops hnn
    have h1 : NonNegDB (applyOp db op) :=
      applyOp_nonneg (hops op (List.mem_cons_self _ _)) hnn
    exact ih (fun o ho => hops o (List.mem_cons_of_mem _ ho)) h1

/-! ## Conservation lemmas -/

theorem process_distributor_order_conserves {db : DB} {bid : Nat} {q : Int}
    {dn : String} {u : User} {r : DistributorOrderResult} {db' : DB}
    (h : process_distributor_order db bid q dn u = .ok (r, db')) :
    blanketStockOf db' bid = blanketStockOf db bid - q ∧
    distStockOf db' dn bid = distStockOf db dn bid + q := by
  unfold process_distributor_order at h
  split at h
  · exact Except.noConfusion h
  · rename_i blanket hfind
    split at h
    · exact Except.noConfusion h
    · rename_i hge
      injection h with h
      rw [Prod.mk.injEq] at h
      obtain ⟨-, hdb⟩ := h
      subst hdb
      have hpresB : ∀ b : Blanket, (b.id == bid) = true →
          ((({ b with stock := b.stock - q } : Blanket).id == bid) = true) := by
        intro b hb
        simpa using hb
      have hpresD : ∀ s : DistributorStock,
          (s.distributor_name == dn && s.blanket_id == bid) = true →
          ((({ s with quantity := s.quantity + q } : DistributorStock).distributor_name == dn
            && ({ s with quantity := s.quantity + q } : DistributorStock).blanket_id == bid) = true) := by
        intro s hs
        simpa using hs
      constructor
      · unfold blanketStockOf findBlanket
        unfold findBlanket at hfind
        split
        all_goals simp [find?_updateFirst hpresB, hfind]
      · unfold distStockOf findDistributorStock
        split
        · rename_i s hds
          simp only [findDistributorStock] at hds
          simp [find?_updateFirst hpresD, hds]
        · rename_i hds
          simp only [findDistributorStock] at hds
          rw [find?_append_of_none hds]
          simp [hds]

theorem process_seller_order_conserves {db : DB} {bid : Nat} {q : Int}
    {dn sn : String} {r : SellerOrderResult} {db' : DB}
    (h : process_seller_order db bid q dn sn = .ok (r, db')) :
    distStockOf db' dn bid = distStockOf db dn bid - q ∧
    sellerInvOf db' sn bid = sellerInvOf db sn bid + q := by
  unfold process_seller_order at h
  split at h
  · exact Except.noConfusion h
  · split at h
    · exact Except.noConfusion h
    · split at h
      · exact Except.noConfusion h
      · rename_i stock hfind
        split at h
        · exact Except.noConfusion h
        · rename_i hge
          injection h with h
          rw [Prod.mk.injEq] at h
          obtain ⟨-, hdb⟩ := h
          subst hdb
          have hpresD : ∀ s : DistributorStock,
              (s.distributor_name == dn && s.blanket_id == bid) = true →
              ((({ s with quantity := s.quantity - q } : DistributorStock).distributor_name == dn
                && ({ s with quantity := s.quantity - q } : DistributorStock).blanket_id == bid) = true) := by
            intro s hs
            simpa using hs
          have hpresS : ∀ i : SellerInventory,
              (i.seller_name == sn && i.blanket_id == bid) = true →
              ((({ i with quantity := i.quantity + q } : SellerInventory).seller_name == sn
                && ({ i with quantity := i.quantity + q } : SellerInventory).blanket_id == bid) = true) := by
            intro i hi
            simpa using hi
          constructor
          · unfold distStockOf findDistributorStock
            rw [(trySync_tables _ sn bid).2.1]
            unfold findDistributorStock at hfind
            split
            all_goals simp [find?_updateFirst hpresD, hfind]
          · unfold sellerInvOf findSellerInventory
            rw [(trySync_tables _ sn bid).2.2.2.1]
            split
            · rename_i i his
              simp only [findSellerInventory] at his
              simp [find?_updateFirst hpresS, his]
            · rename_i his
              simp only [findSellerInventory] at his
              rw [find?_append_of_none his]
              simp [his]

/-! ## Overdraft behaviour -/

theorem process_distributor_order_overdraft {db : DB} {bid : Nat} {q : Int}
    {dn : String} {u : User} {blanket : Blanket}
    (hfind : findBlanket db bid = some blanket) (hlt : blanket.stock < q) :
    process_distributor_order db bid q dn u
      = .error ("Insufficient manufacturer stock. Available: " ++ toString blanket.stock
          ++ ", Requested: " ++ toString q) ∧
    applyOp db (.producerTransfer bid q dn u) = db := by
  have herr : process_distributor_order db bid q dn u
      = .error ("Insufficient manufacturer stock. Available: " ++ toString blanket.stock
          ++ ", Requested: " ++ toString q) := by
    unfold process_distributor_order
    rw [hfind]
    simp [hlt]
  exact ⟨herr, by simp [applyOp, herr]⟩

theorem process_seller_order_overdraft {db : DB} {bid : Nat} {q : Int}
    {dn sn : String} {su du : User} {stock : DistributorStock}
    (hsu : findUser db sn = some su) (hdu : findUser db dn = some du)
    (hfind : findDistributorStock db dn bid = some stock)
    (hlt : stock.quantity < q) :
    process_seller_order db bid q dn sn
      = .error ("Insufficient distributor stock. Available: " ++ toString stock.quantity
          ++ ", Requested: " ++ toString q) ∧
    applyOp db (.distributorTransfer bid q dn sn) = db := by
  have herr : process_seller_order db bid q dn sn
      = .error ("Insufficient distributor stock. Available: " ++ toString stock.quantity
          ++ ", Requested: " ++ toString q) := by
    unfold process_seller_order
    rw [hsu, hdu, hfind]
    simp [hlt]
  exact ⟨herr, by simp [applyOp, herr]⟩

theorem process_customer_order_overdraft {db : DB} {bid : Nat} {q : Int}
    {sn cn : String} {cu : Option User} {pt : Option Rat} {inv : SellerInventory}
    (hfind : findSellerInventory db sn bid = some inv) (hlt : inv.quantity < q) :
    process_customer_order db bid q sn cn cu pt
      = .error ("Insufficient seller inventory. Available: " ++ toString inv.quantity
          ++ ", Requested: " ++ toString q) ∧
    applyOp db (.customerTransfer bid q sn cn cu pt) = db := by
  have herr : process_customer_order db bid q sn cn cu pt
      = .error ("Insufficient seller inventory. Available: " ++ toString inv.quantity
          ++ ", Requested: " ++ toString q) := by
    unfold process_customer_order
    rw [hfind]
    simp [hlt]
  exact ⟨herr, by simp [applyOp, herr]⟩

/-! ## Journal growth on successful transfers -/

theorem process_distributor_order_journal {db : DB} {bid : Nat} {q : Int}
    {dn : String} {u : User} {r : DistributorOrderResult} {db' : DB}
    (h : process_distributor_order db bid q dn u = .ok (r, db')) :
    db'.distributor_orders = db.distributor_orders
      ++ [{ distributor_id := u.id, blanket_id := bid, quantity := q }] ∧
    db'.seller_orders = db.seller_orders ∧
    db'.customer_orders = db.customer_orders := by
  unfold process_distributor_order at h
  split at h
  · exact Except.noConfusion h
  · split at h
    · exact Except.noConfusion h
    · injection h with h
      rw [Prod.mk.injEq] at h
      obtain ⟨-, hdb⟩ := h
      subst hdb
      refine ⟨?_, ?_, ?_⟩ <;> (split <;> rfl)

theorem process_seller_order_journal {db : DB} {bid : Nat} {q : Int}
    {dn sn : String} {r : SellerOrderResult} {db' : DB}
    (h : process_seller_order db bid q dn sn = .ok (r, db')) :
    db'.seller_orders.length = db.seller_orders.length + 1 ∧
    db'.distributor_orders = db.distributor_orders ∧
    db'.customer_orders = db.customer_orders := by
  unfold process_seller_order at h
  split at h
  · exact Except.noConfusion h
  · split at h
    · exact Except.noConfusion h
    · split at h
      · exact Except.noConfusion h
      · split at h
        · exact Except.noConfusion h
        · injection h with h
          rw [Prod.mk.injEq] at h
          obtain ⟨-, hdb⟩ := h
          subst hdb
          refine ⟨?_, ?_, ?_⟩
          · rw [(trySync_tables _ sn bid).2.2.2.2.1]
            split <;> simp
          · rw [(trySync_tables _ sn bid).2.2.1]
            split <;> rfl
          · rw [(trySync_tables _ sn bid).2.2.2.2.2.1]
            split <;> rfl

theorem process_customer_order_journal {db : DB} {bid : Nat} {q : Int}
    {sn cn : String} {cu : Option User} {pt : Option Rat}
    {r : CustomerOrderResult} {db' : DB}
    (h : process_customer_order db bid q sn cn cu pt = .ok (r, db')) :
    db'.customer_orders.length = db.customer_orders.length + 1 ∧
    db'.distributor_orders = db.distributor_orders ∧
    db'.seller_orders = db.seller_orders := by
  unfold process_customer_order at h
  split at h
  · exact Except.noConfusion h
  · split at h
    · exact Except.noConfusion h
    · simp only [] at h
      split at h
      · exact Except.noConfusion h
      · injection h with h
        rw [Prod.mk.injEq] at h
        obtain ⟨-, hdb⟩ := h
        subst hdb
        refine ⟨?_, ?_, ?_⟩
        · rw [(trySync_tables _ sn bid).2.2.2.2.2.1]
          simp
        · rw [(trySync_tables _ sn bid).2.2.1]
        · rw [(trySync_tables _ sn bid).2.2.2.2.1]

/-! ## Total-value computation and validation -/

theorem process_customer_order_total {db : DB} {bid : Nat} {q : Int}
    {sn cn : String} {cu : Option User} {pt : Option Rat}
    {r : CustomerOrderResult} {db' : DB} {seller : User} {prod : ProductForSale}
    (hu : findUser db sn = some seller)
    (hp : findProductForSale db seller.id bid = some prod)
    (h : process_customer_order db bid q sn cn cu pt = .ok (r, db')) :
    r.customer_order.total_value = some (prod.price * q) := by
  unfold process_customer_order at h
  split at h
  · exact Except.noConfusion h
  · split at h
    · exact Except.noConfusion h
    · simp only [] at h
      unfold findUser at hu
      unfold findProductForSale at hp
      simp only [findUser, findProductForSale, hu, hp] at h
      split at h
      · exact Except.noConfusion h
      · injection h with h
        rw [Prod.mk.injEq] at h
        obtain ⟨hr, -⟩ := h
        subst hr
        rfl

theorem process_customer_order_mismatch {db : DB} {bid : Nat} {q : Int}
    {sn cn : String} {cu : Option User} {pt : Rat}
    {inv : SellerInventory} {seller : User} {prod : ProductForSale}
    (hinv : findSellerInventory db sn bid = some inv) (hge : ¬ inv.quantity < q)
    (hu : findUser db sn = some seller)
    (hp : findProductForSale db seller.id bid = some prod)
    (hmm : abs (pt - prod.price * q) > (1 : Rat) / 100) :
    process_customer_order db bid q sn cn cu (some pt)
      = .error ("Total value mismatch. Expected: " ++ toString (prod.price * q)
          ++ ", Provided: " ++ toString pt) ∧
    applyOp db (.customerTransfer bid q sn cn cu (some pt)) = db := by
  have herr : process_customer_order db bid q sn cn cu (some pt)
      = .error ("Total value mismatch. Expected: " ++ toString (prod.price * q)
          ++ ", Provided: " ++ toString pt) := by
    unfold process_customer_order
    rw [hinv]
    dsimp only
    rw [if_neg hge]
    unfold findUser at hu
    unfold findProductForSale at hp
    simp only [findUser, findProductForSale, hu, hp]
    rw [if_pos (by simp [totalMismatch]; simpa using hmm)]
    simp
  exact ⟨herr, by simp [applyOp, herr]⟩

/-! ## Behaviour of the swallowed resync -/

theorem trySync_no_product {db : DB} {sn : String} {bid : Nat} {su : User}
    (hu : findUser db sn = some su)
    (hp : findProductForSale db su.id bid = none) :
    trySyncProduct db sn bid = db := by
  unfold trySyncProduct
  split
  · rename_i db2 hok
    unfold sync_product_quantity_with_inventory at hok
    rw [hu] at hok
    dsimp only at hok
    split at hok
    · exact Except.noConfusion hok
    · rw [hp] at hok
      exact Except.noConfusion hok
  · rfl

theorem trySync_updates_listing {db : DB} {sn : String} {bid : Nat} {su : User}
    {inv : SellerInventory} {prod : ProductForSale}
    (hu : findUser db sn = some su)
    (hi : findSellerInventory db sn bid = some inv)
    (hp : findProductForSale db su.id bid = some prod) :
    (findProductForSale (trySyncProduct db sn bid) su.id bid).map (fun p => p.quantity)
      = some inv.quantity ∧
    (findProductForSale (trySyncProduct db sn bid) su.id bid).map (fun p => p.availability)
      = some (if inv.quantity == 0 then AvailabilityStatus.OUT_OF_STOCK
          else if prod.availability == AvailabilityStatus.OUT_OF_STOCK && inv.quantity > 0
            then AvailabilityStatus.IN_STOCK
          else prod.availability) := by
  have hpres : ∀ p : ProductForSale,
      (p.seller_id == su.id && p.blanket_id == bid) = true →
      ∀ qv av, ((({ p with quantity := qv, availability := av } : ProductForSale).seller_id == su.id
        && ({ p with quantity := qv, availability := av } : ProductForSale).blanket_id == bid) = true) := by
    intro p hpp qv av
    simpa using hpp
  unfold trySyncProduct
  split
  · rename_i db2 hok
    unfold sync_product_quantity_with_inventory at hok
    rw [hu] at hok
    dsimp only at hok
    rw [hi] at hok
    dsimp only at hok
    rw [hp] at hok
    dsimp only at hok
    injection hok with hok
    subst hok
    unfold findProductForSale at hp ⊢
    constructor
    all_goals
      simp [find?_updateFirst (fun p hpp => hpres p hpp inv.quantity _), hp]
  · rename_i herr
    exfalso
    unfold sync_product_quantity_with_inventory at herr
    rw [hu] at herr
    dsimp only at herr
    rw [hi] at herr
    dsimp only at herr
    rw [hp] at herr
    dsimp only at herr
    exact Except.noConfusion herr

theorem process_seller_order_no_listing {db : DB} {bid : Nat} {q : Int}
    {dn sn : String} {su : User} {r : SellerOrderResult} {db' : DB}
    (hu : findUser db sn = some su)
    (hnp : findProductForSale db su.id bid = none)
    (h : process_seller_order db bid q dn sn = .ok (r, db')) :
    db'.products_for_sale = db.products_for_sale := by
  unfold process_seller_order at h
  rw [hu] at h
  dsimp only at h
  split at h
  · exact Except.noConfusion h
  · split at h
    · exact Except.noConfusion h
    · rename_i stock hst
      split at h
      · exact Except.noConfusion h
      · injection h with h
        rw [Prod.mk.injEq] at h
        obtain ⟨-, hdb⟩ := h
        subst hdb
        split
        all_goals
          rw [trySync_no_product (by simpa [findUser] using hu : findUser _ sn = some su)
            (by simpa [findProductForSale] using hnp)]

theorem process_seller_order_resync_quantity {db : DB} {bid : Nat} {q : Int}
    {dn sn : String} {su : User} {prod : ProductForSale}
    {r : SellerOrderResult} {db' : DB}
    (hu : findUser db sn = some su)
    (hl : findProductForSale db su.id bid = some prod)
    (h : process_seller_order db bid q dn sn = .ok (r, db')) :
    (findProductForSale db' su.id bid).map (fun p => p.quantity)
      = some (sellerInvOf db sn bid + q) := by
  have hpresS : ∀ i : SellerInventory,
      (i.seller_name == sn && i.blanket_id == bid) = true →
      ((({ i with quantity := i.quantity + q } : SellerInventory).seller_name == sn
        && ({ i with quantity := i.quantity + q } : SellerInventory).blanket_id == bid) = true) := by
    intro i hi
    simpa using hi
  unfold process_seller_order at h
  rw [hu] at h
  dsimp only at h
  split at h
  · exact Except.noConfusion h
  · rename_i du hdu
    split at h
    · exact Except.noConfusion h
    · rename_i stock hst
      split at h
      · exact Except.noConfusion h
      · injection h with h
        rw [Prod.mk.injEq] at h
        obtain ⟨-, hdb⟩ := h
        subst hdb
        split
        · rename_i i hi
          simp only [findSellerInventory] at hi
          have hinv : sellerInvOf db sn bid = i.quantity := by
            simp [sellerInvOf, findSellerInventory, hi]
          rw [hinv]
          have hi3 : findSellerInventory
              { blankets := db.blankets,
                distributor_stocks := updateFirst
                  (fun s => s.distributor_name == dn && s.blanket_id == bid)
                  (fun s => { s with quantity := s.quantity - q })
                  db.distributor_stocks,
                distributor_orders := db.distributor_orders,
                seller_inventories := updateFirst
                  (fun i => i.seller_name == sn && i.blanket_id == bid)
                  (fun i => { i with quantity := i.quantity + q })
                  db.seller_inventories,
                seller_orders := db.seller_orders ++
                  [{ seller_id := su.id, distributor_id := du.id,
                     blanket_id := bid, quantity := q }],
                customer_orders := db.customer_orders,
                products_for_sale := db.products_for_sale,
                users := db.users } sn bid
              = some { i with quantity := i.quantity + q } := by
            unfold findSellerInventory
            simp [find?_updateFirst hpresS, hi]
          have hres := trySync_updates_listing
            (by simpa [findUser] using hu) hi3 (by simpa [findProductForSale] using hl)
          exact hres.1
        · rename_i hi
          simp only [findSellerInventory] at hi
          have hinv : sellerInvOf db sn bid = 0 := by
            simp [sellerInvOf, findSellerInventory, hi]
          rw [hinv]
          have hi3 : findSellerInventory
              { blankets := db.blankets,
                distributor_stocks := updateFirst
                  (fun s => s.distributor_name == dn && s.blanket_id == bid)
                  (fun s => { s with quantity := s.quantity - q })
                  db.distributor_stocks,
                distributor_orders := db.distributor_orders,
                seller_inventories := db.seller_inventories ++
                  [{ seller_name := sn, blanket_id := bid, quantity := q }],
                seller_orders := db.seller_orders ++
                  [{ seller_id := su.id, distributor_id := du.id,
                     blanket_id := bid, quantity := q }],
                customer_orders := db.customer_orders,
                products_for_sale := db.products_for_sale,
                users := db.users } sn bid
              = some { seller_name := sn, blanket_id := bid, quantity := q } := by
            unfold findSellerInventory
            rw [find?_append_of_none hi]
            simp
          have hres := trySync_updates_listing
            (by simpa [findUser] using hu) hi3 (by simpa [findProductForSale] using hl)
          rw [zero_add]
          exact hres.1

/-- Committed state of a transactional call: the new state on success, the
old state when the transaction was rolled back. -/
def commitOf (db : DB) (e : Except String (α × DB)) : DB :=
  match e with
  | .ok (_, d) => d
  | .error _ => db

/-! ## Concrete fixtures used by the witnesses -/

def userD1 : User := { id := 1, username := "D1", role := "distributor" }

def userS1 : User := { id := 2, username := "S1", role := "seller" }

def dbW : DB :=
  { blankets := [{ id := 1, model_name := "Classic", material := "wool",
                   stock := 10, production_capacity := 5 }],
    distributor_stocks := [{ distributor_name := "D1", blanket_id := 1, quantity := 5 }],
    distributor_orders := [],
    seller_inventories := [{ seller_name := "S1", blanket_id := 1, quantity := 2 }],
    seller_orders := [],
    customer_orders := [],
    products_for_sale := [{ seller_id := 2, blanket_id := 1, price := 3,
                            quantity := 2, availability := .IN_STOCK }],
    users := [userD1, userS1] }

def dbNoListing : DB := { dbW with products_for_sale := [] }

def prodOOS : ProductForSale :=
  { seller_id := 2, blanket_id := 1, price := 3, quantity := 2,
    availability := .OUT_OF_STOCK }

def dbOOS : DB := { dbW with products_for_sale := [prodOOS] }

instance {ε α : Type} [DecidableEq ε] [DecidableEq α] : DecidableEq (Except ε α) := by
  intro x y
  cases x with
  | ok a =>
    cases y with
    | ok b =>
      cases hab : decide (a = b) with
      | true => exact isTrue (by rw [of_decide_eq_true hab])
      | false => exact isFalse (by
          intro hc
          injection hc with hc
          exact absurd (decide_eq_true hc) (by simp [hab]))
    | error e => exact isFalse (by intro hc; exact Except.noConfusion hc)
  | error e =>
    cases y with
    | ok b => exact isFalse (by intro hc; exact Except.noConfusion hc)
    | error f =>
      cases hef : decide (e = f) with
      | true => exact isTrue (by rw [of_decide_eq_true hef])
      | false => exact isFalse (by
          intro hc
          injection hc with hc
          exact absurd (decide_eq_true hc) (by simp [hef]))

/-! ## Claim theorems -/

/-- C1: for every successful Producer→Distributor or Distributor→Seller
transfer of quantity q, the source's balance drops by q, the destination's
balance rises by q (a fresh record starting from 0 when absent), and the
sum of the two balances is unchanged. -/
theorem C1_transfer_conservation (db : DB) (bid : Nat) (q : Int) (dn sn : String)
    (u : User) (rP : DistributorOrderResult) (rS : SellerOrderResult) (dbP dbS : DB) :
    (process_distributor_order db bid q dn u = .ok (rP, dbP) →
      blanketStockOf dbP bid = blanketStockOf db bid - q ∧
      distStockOf dbP dn bid = distStockOf db dn bid + q ∧
      blanketStockOf dbP bid + distStockOf dbP dn bid
        = blanketStockOf db bid + distStockOf db dn bid) ∧
    (process_seller_order db bid q dn sn = .ok (rS, dbS) →
      distStockOf dbS dn bid = distStockOf db dn bid - q ∧
      sellerInvOf dbS sn bid = sellerInvOf db sn bid + q ∧
      distStockOf dbS dn bid + sellerInvOf dbS sn bid
        = distStockOf db dn bid + sellerInvOf db sn bid) := by
  constructor
  · intro h
    obtain ⟨h1, h2⟩ := process_distributor_order_conserves h
    exact ⟨h1, h2, by omega⟩
  · intro h
    obtain ⟨h1, h2⟩ := process_seller_order_conserves h
    exact ⟨h1, h2, by omega⟩

theorem C1_transfer_conservation_witness :
    (blanketStockOf (applyOp dbW (.producerTransfer 1 4 "D1" userD1)) 1
        = blanketStockOf dbW 1 - 4 ∧
      distStockOf (applyOp dbW (.producerTransfer 1 4 "D1" userD1)) "D1" 1
        = distStockOf dbW "D1" 1 + 4 ∧
      blanketStockOf (applyOp dbW (.producerTransfer 1 4 "D1" userD1)) 1
          + distStockOf (applyOp dbW (.producerTransfer 1 4 "D1" userD1)) "D1" 1
        = blanketStockOf dbW 1 + distStockOf dbW "D1" 1) ∧
    (distStockOf (applyOp dbW (.distributorTransfer 1 3 "D1" "S1")) "D1" 1
        = distStockOf dbW "D1" 1 - 3 ∧
      sellerInvOf (applyOp dbW (.distributorTransfer 1 3 "D1" "S1")) "S1" 1
        = sellerInvOf dbW "S1" 1 + 3 ∧
      distStockOf (applyOp dbW (.distributorTransfer 1 3 "D1" "S1")) "D1" 1
          + sellerInvOf (applyOp dbW (.distributorTransfer 1 3 "D1" "S1")) "S1" 1
        = distStockOf dbW "D1" 1 + sellerInvOf dbW "S1" 1) := by
  constructor
  · exact (C1_transfer_conservation dbW 1 4 "D1" "S1" userD1
      { manufacturer_remaining_stock := 6, distributor_stock := 9, processed_quantity := 4 }
      { distributor_remaining_stock := 2, seller_inventory := 5, processed_quantity := 3 }
      (applyOp dbW (.producerTransfer 1 4 "D1" userD1))
      (applyOp dbW (.distributorTransfer 1 3 "D1" "S1"))).1 (by decide)
  · exact (C1_transfer_conservation dbW 1 3 "D1" "S1" userD1
      { manufacturer_remaining_stock := 6, distributor_stock := 9, processed_quantity := 4 }
      { distributor_remaining_stock := 2, seller_inventory := 5, processed_quantity := 3 }
      (applyOp dbW (.producerTransfer 1 4 "D1" userD1))
      (applyOp dbW (.distributorTransfer 1 3 "D1" "S1"))).2 (by decide)

/-- C2 counterexample: the schemas put no lower bound on quantities, so a
single transfer request with a negative quantity drives a distributor stock
record below zero while the call still reports success. -/
theorem C2_negative_quantity_counterexample :
    NonNegDB dbW ∧
    (match process_distributor_order dbW 1 (-6) "D1" userD1 with
      | .ok _ => true
      | .error _ => false) = true ∧
    ¬ NonNegDB (applyOp dbW (.producerTransfer 1 (-6) "D1" userD1)) := by
  decide

/-- C2 (amended): restricted to operations whose requested quantities are
nonnegative, no sequence of engine operations drives a stock or inventory
record below zero, and an attempted overdraft (requested quantity above the
available balance of an existing source record) fails with an
insufficient-stock error and leaves every balance unchanged. -/
theorem C2_nonneg_amended (db : DB) :
    (∀ ops : List EngineOp, (∀ op ∈ ops, op.nonNegQuantity) → NonNegDB db →
        NonNegDB (applyOps db ops)) ∧
    (∀ (bid : Nat) (q : Int) (dn : String) (u : User) (blanket : Blanket),
        findBlanket db bid = some blanket → blanket.stock < q →
        process_distributor_order db bid q dn u
          = .error ("Insufficient manufacturer stock. Available: "
              ++ toString blanket.stock ++ ", Requested: " ++ toString q) ∧
        applyOp db (.producerTransfer bid q dn u) = db) ∧
    (∀ (bid : Nat) (q : Int) (dn sn : String) (su du : User) (stock : DistributorStock),
        findUser db sn = some su → findUser db dn = some du →
        findDistributorStock db dn bid = some stock → stock.quantity < q →
        process_seller_order db bid q dn sn
          = .error ("Insufficient distributor stock. Available: "
              ++ toString stock.quantity ++ ", Requested: " ++ toString q) ∧
        applyOp db (.distributorTransfer bid q dn sn) = db) ∧
    (∀ (bid : Nat) (q : Int) (sn cn : String) (cu : Option User) (pt : Option Rat)
        (inv : SellerInventory),
        findSellerInventory db sn bid = some inv → inv.quantity < q →
        process_customer_order db bid q sn cn cu pt
          = .error ("Insufficient seller inventory. Available: "
              ++ toString inv.quantity ++ ", Requested: " ++ toString q) ∧
        applyOp db (.customerTransfer bid q sn cn cu pt) = db) := by
  refine ⟨?_, ?_, ?_, ?_⟩
  · intro ops hops hnn
    exact applyOps_nonneg hops hnn
  · intro bid q dn u blanket hfind hlt
    exact process_distributor_order_overdraft hfind hlt
  · intro bid q dn sn su du stock hsu hdu hfind hlt
    exact process_seller_order_overdraft hsu hdu hfind hlt
  · intro bid q sn cn cu pt inv hfind hlt
    exact process_customer_order_overdraft hfind hlt

theorem C2_nonneg_amended_witness :
    NonNegDB (applyOps dbW [.producerTransfer 1 4 "D1" userD1,
      .distributorTransfer 1 3 "D1" "S1"]) ∧
    (process_distributor_order dbW 1 100 "D1" userD1
        = .error "Insufficient manufacturer stock. Available: 10, Requested: 100" ∧
      applyOp dbW (.producerTransfer 1 100 "D1" userD1) = dbW) ∧
    (process_seller_order dbW 1 100 "D1" "S1"
        = .error "Insufficient distributor stock. Available: 5, Requested: 100" ∧
      applyOp dbW (.distributorTransfer 1 100 "D1" "S1") = dbW) ∧
    (process_customer_order dbW 1 100 "S1" "Alice" none none
        = .error "Insufficient seller inventory. Available: 2, Requested: 100" ∧
      applyOp dbW (.customerTransfer 1 100 "S1" "Alice" none none) = dbW) := by
  refine ⟨?_, ?_, ?_, ?_⟩
  · exact (C2_nonneg_amended dbW).1 [.producerTransfer 1 4 "D1" userD1,
      .distributorTransfer 1 3 "D1" "S1"] (by decide) (by decide)
  · exact (C2_nonneg_amended dbW).2.1 1 100 "D1" userD1
      { id := 1, model_name := "Classic", material := "wool",
        stock := 10, production_capacity := 5 } (by decide) (by decide)
  · exact (C2_nonneg_amended dbW).2.2.1 1 100 "D1" "S1" userS1 userD1
      { distributor_name := "D1", blanket_id := 1, quantity := 5 } (by decide) (by decide)
      (by decide) (by decide)
  · exact (C2_nonneg_amended dbW).2.2.2 1 100 "S1" "Alice" none none
      { seller_name := "S1", blanket_id := 1, quantity := 2 } (by decide) (by decide)

/-- C3: in the Seller→Customer transfer the computed total is the listing
price times the requested quantity, and a caller-supplied expected total
that differs from it by more than 0.01 in absolute value fails with a
total-mismatch error with the transaction rolled back, every balance
unchanged. -/
theorem C3_total_value (db : DB) (bid : Nat) (q : Int) (sn cn : String)
    (cu : Option User) (seller : User) (prod : ProductForSale) :
    (∀ (pt : Option Rat) (r : CustomerOrderResult) (db' : DB),
      findUser db sn = some seller →
      findProductForSale db seller.id bid = some prod →
      process_customer_order db bid q sn cn cu pt = .ok (r, db') →
      r.customer_order.total_value = some (prod.price * q)) ∧
    (∀ (pt : Rat) (inv : SellerInventory),
      findSellerInventory db sn bid = some inv → ¬ inv.quantity < q →
      findUser db sn = some seller →
      findProductForSale db seller.id bid = some prod →
      abs (pt - prod.price * q) > (1 : Rat) / 100 →
      process_customer_order db bid q sn cn cu (some pt)
        = .error ("Total value mismatch. Expected: " ++ toString (prod.price * q)
            ++ ", Provided: " ++ toString pt) ∧
      applyOp db (.customerTransfer bid q sn cn cu (some pt)) = db) := by
  constructor
  · intro pt r db' hu hp h
    exact process_customer_order_total hu hp h
  · intro pt inv hinv hge hu hp hmm
    exact process_customer_order_mismatch hinv hge hu hp hmm

def orderW3 : CustomerOrder :=
  { customer_name := "Bob", seller_name := "S1", blanket_id := 1,
    quantity := 1, status := "pending",
    total_value := some ((3 : Rat) * ((1 : Int) : Rat)) }

def resW3 : CustomerOrderResult :=
  { seller_remaining_inventory := 1, customer_order := orderW3,
    processed_quantity := 1 }

def prodW : ProductForSale :=
  { seller_id := 2, blanket_id := 1, price := 3, quantity := 2,
    availability := .IN_STOCK }

def invW : SellerInventory :=
  { seller_name := "S1", blanket_id := 1, quantity := 2 }

theorem C3_total_value_witness :
    (process_customer_order dbW 1 1 "S1" "Bob" none none
        = .ok (resW3, applyOp dbW (.customerTransfer 1 1 "S1" "Bob" none none)) ∧
      resW3.customer_order.total_value = some ((3 : Rat) * ((1 : Int) : Rat))) ∧
    (process_customer_order dbW 1 1 "S1" "Bob" none (some 10)
        = .error ("Total value mismatch. Expected: " ++ toString ((3 : Rat) * ((1 : Int) : Rat))
            ++ ", Provided: " ++ toString (10 : Rat)) ∧
      applyOp dbW (.customerTransfer 1 1 "S1" "Bob" none (some 10)) = dbW) := by
  constructor
  · refine ⟨by rfl, ?_⟩
    exact (C3_total_value dbW 1 1 "S1" "Bob" none userS1 prodW).1 none
      resW3 (applyOp dbW (.customerTransfer 1 1 "S1" "Bob" none none))
      (by rfl) (by rfl) (by rfl)
  · exact (C3_total_value dbW 1 1 "S1" "Bob" none userS1 prodW).2 10 invW
      (by rfl) (by decide) (by rfl) (by rfl) (by norm_num [prodW])

/-- C4: the Seller→Customer controller fails with a not-published error when
no listing exists, with an out-of-stock error when the listing is
OutOfStock, and with an insufficient-quantity error when the listing's
quantity is below the request, each time before any state mutation. -/
theorem C4_purchase_guards (db : DB) (data : CustomerPurchase) (user : User) :
    (get_product_for_sale_by_seller_and_blanket db data.seller_name data.blanket_id = none →
      customer_purchase db data user
        = .error ("Product with blanket ID " ++ toString data.blanket_id
            ++ " is not available for sale by " ++ data.seller_name
            ++ ". Seller must add it to products for sale first.") ∧
      commitOf db (customer_purchase db data user) = db) ∧
    (∀ p, get_product_for_sale_by_seller_and_blanket db data.seller_name data.blanket_id = some p →
      p.availability = .OUT_OF_STOCK →
      customer_purchase db data user = .error "Product is currently out of stock" ∧
      commitOf db (customer_purchase db data user) = db) ∧
    (∀ p, get_product_for_sale_by_seller_and_blanket db data.seller_name data.blanket_id = some p →
      p.availability ≠ .OUT_OF_STOCK → p.quantity < data.quantity →
      customer_purchase db data user
        = .error ("Insufficient quantity available. Available: " ++ toString p.quantity
            ++ ", Requested: " ++ toString data.quantity) ∧
      commitOf db (customer_purchase db data user) = db) := by
  refine ⟨?_, ?_, ?_⟩
  · intro hnp
    have herr : customer_purchase db data user
        = .error ("Product with blanket ID " ++ toString data.blanket_id
            ++ " is not available for sale by " ++ data.seller_name
            ++ ". Seller must add it to products for sale first.") := by
      unfold customer_purchase
      rw [hnp]
    exact ⟨herr, by simp [commitOf, herr]⟩
  · intro p hp hoos
    have herr : customer_purchase db data user
        = .error "Product is currently out of stock" := by
      unfold customer_purchase
      rw [hp]
      dsimp only
      rw [if_pos (by simp [hoos])]
    exact ⟨herr, by simp [commitOf, herr]⟩
  · intro p hp hoos hlt
    have herr : customer_purchase db data user
        = .error ("Insufficient quantity available. Available: " ++ toString p.quantity
            ++ ", Requested: " ++ toString data.quantity) := by
      unfold customer_purchase
      rw [hp]
      dsimp only
      rw [if_neg (by simp [hoos]), if_pos hlt]
    exact ⟨herr, by simp [commitOf, herr]⟩

def purchase9 : CustomerPurchase :=
  { customer_name := "Bob", seller_name := "S1", blanket_id := 9, quantity := 1 }

def purchase1 : CustomerPurchase :=
  { customer_name := "Bob", seller_name := "S1", blanket_id := 1, quantity := 1 }

def purchase5 : CustomerPurchase :=
  { customer_name := "Bob", seller_name := "S1", blanket_id := 1, quantity := 5 }

theorem C4_purchase_guards_witness :
    (customer_purchase dbW purchase9 userS1
        = .error ("Product with blanket ID " ++ toString (9 : Nat)
            ++ " is not available for sale by " ++ "S1"
            ++ ". Seller must add it to products for sale first.") ∧
      commitOf dbW (customer_purchase dbW purchase9 userS1) = dbW) ∧
    (customer_purchase dbOOS purchase1 userS1
        = .error "Product is currently out of stock" ∧
      commitOf dbOOS (customer_purchase dbOOS purchase1 userS1) = dbOOS) ∧
    (customer_purchase dbW purchase5 userS1
        = .error ("Insufficient quantity available. Available: " ++ toString (2 : Int)
            ++ ", Requested: " ++ toString (5 : Int)) ∧
      commitOf dbW (customer_purchase dbW purchase5 userS1) = dbW) := by
  refine ⟨?_, ?_, ?_⟩
  · exact (C4_purchase_guards dbW purchase9 userS1).1 (by decide)
  · exact (C4_purchase_guards dbOOS purchase1 userS1).2.1 prodOOS (by decide) (by decide)
  · exact (C4_purchase_guards dbW purchase5 userS1).2.2 prodW (by decide) (by decide)
      (by decide)

/-- C5 counterexample: a listing manually forced to OutOfStock while the
seller's inventory is 5 (nonzero) IS auto-reverted to InStock by resync,
contrary to the claim that it is not. -/
theorem C5_forced_override_counterexample :
    (findProductForSale dbOOS 2 1).map (fun p => p.availability)
      = some AvailabilityStatus.OUT_OF_STOCK ∧
    (findSellerInventory dbOOS "S1" 1).map (fun i => i.quantity) = some 2 ∧
    (match sync_product_quantity_with_inventory dbOOS "S1" 1 with
      | .ok d => (findProductForSale d 2 1).map (fun p => p.availability)
      | .error _ => none) = some AvailabilityStatus.IN_STOCK := by
  decide

/-- C5 (amended): resync overwrites the listing's quantity with the current
inventory quantity and recomputes availability: OutOfStock when the
quantity is zero, and any OutOfStock listing with positive quantity —
including a manually-forced override — is flipped back to InStock; an
InStock listing with nonzero quantity stays InStock. -/
theorem C5_resync_amended (db db' : DB) (sn : String) (bid : Nat) (su : User)
    (inv : SellerInventory) (prod : ProductForSale)
    (hu : findUser db sn = some su)
    (hi : findSellerInventory db sn bid = some inv)
    (hp : findProductForSale db su.id bid = some prod)
    (hok : sync_product_quantity_with_inventory db sn bid = .ok db') :
    (findProductForSale db' su.id bid).map (fun p => p.quantity) = some inv.quantity ∧
    (inv.quantity = 0 →
      (findProductForSale db' su.id bid).map (fun p => p.availability)
        = some AvailabilityStatus.OUT_OF_STOCK) ∧
    (0 < inv.quantity → prod.availability = AvailabilityStatus.OUT_OF_STOCK →
      (findProductForSale db' su.id bid).map (fun p => p.availability)
        = some AvailabilityStatus.IN_STOCK) ∧
    (inv.quantity ≠ 0 → prod.availability = AvailabilityStatus.IN_STOCK →
      (findProductForSale db' su.id bid).map (fun p => p.availability)
        = some AvailabilityStatus.IN_STOCK) := by
  have htry : trySyncProduct db sn bid = db' := by
    unfold trySyncProduct
    rw [hok]
  obtain ⟨hq2, ha⟩ := trySync_updates_listing hu hi hp
  rw [htry] at hq2 ha
  refine ⟨hq2, ?_, ?_, ?_⟩
  · intro h0
    rw [ha]
    simp [h0]
  · intro hpos hoos
    rw [ha]
    have h0 : (inv.quantity == 0) = false := by
      simp only [beq_eq_false_iff_ne, ne_eq]
      omega
    simp [h0, hoos, hpos]
  · intro hne hin
    rw [ha]
    have h0 : (inv.quantity == 0) = false := by
      simp [hne]
    simp [h0, hin]

theorem C5_resync_amended_witness :
    (findProductForSale (trySyncProduct dbOOS "S1" 1) 2 1).map (fun p => p.quantity)
      = some (2 : Int) ∧
    ((0 : Int) < 2 → prodOOS.availability = AvailabilityStatus.OUT_OF_STOCK →
      (findProductForSale (trySyncProduct dbOOS "S1" 1) 2 1).map (fun p => p.availability)
        = some AvailabilityStatus.IN_STOCK) := by
  have h := C5_resync_amended dbOOS (trySyncProduct dbOOS "S1" 1) "S1" 1 userS1
    invW prodOOS (by decide) (by decide) (by decide) (by decide)
  exact ⟨h.1, h.2.2.1⟩

/-- C6: publish fails with a no-inventory error without an inventory record,
fails with an already-published error when a listing exists, and otherwise
creates a listing whose quantity copies the inventory quantity and whose
availability is InStock iff that quantity is positive. -/
theorem C6_publish_contract (db : DB) (sn : String) (data : ProductForSaleCreate)
    (seller : User) (hu : findUser db sn = some seller) :
    (findSellerInventory db sn data.blanket_id = none →
      create_product_for_sale db sn data
        = .error ("No inventory found for blanket " ++ toString data.blanket_id)) ∧
    (∀ inv p, findSellerInventory db sn data.blanket_id = some inv →
      findProductForSale db seller.id data.blanket_id = some p →
      create_product_for_sale db sn data
        = .error ("Product for blanket " ++ toString data.blanket_id ++ " already exists")) ∧
    (∀ inv, findSellerInventory db sn data.blanket_id = some inv →
      findProductForSale db seller.id data.blanket_id = none →
      ∃ p db', create_product_for_sale db sn data = .ok (p, db') ∧
        p.quantity = inv.quantity ∧ p.price = data.price ∧
        (p.availability = AvailabilityStatus.IN_STOCK ↔ 0 < inv.quantity)) := by
  refine ⟨?_, ?_, ?_⟩
  · intro hni
    unfold create_product_for_sale
    rw [hu, hni]
  · intro inv p hinv hp
    unfold create_product_for_sale
    rw [hu, hinv]
    dsimp only
    rw [hp]
  · intro inv hinv hnp
    unfold create_product_for_sale
    rw [hu, hinv]
    dsimp only
    rw [hnp]
    refine ⟨_, _, rfl, rfl, rfl, ?_⟩
    by_cases hq0 : 0 < inv.quantity <;> simp [hq0]

def pubW : ProductForSaleCreate := { blanket_id := 1, price := 7 }

def pubW9 : ProductForSaleCreate := { blanket_id := 9, price := 7 }

theorem C6_publish_contract_witness :
    (create_product_for_sale dbW "S1" pubW9
        = .error ("No inventory found for blanket " ++ toString (9 : Nat))) ∧
    (create_product_for_sale dbW "S1" pubW
        = .error ("Product for blanket " ++ toString (1 : Nat) ++ " already exists")) ∧
    (∃ p db', create_product_for_sale dbNoListing "S1" pubW = .ok (p, db') ∧
      p.quantity = invW.quantity ∧ p.price = pubW.price ∧
      (p.availability = AvailabilityStatus.IN_STOCK ↔ 0 < invW.quantity)) := by
  refine ⟨?_, ?_, ?_⟩
  · exact (C6_publish_contract dbW "S1" pubW9 userS1 (by decide)).1 (by decide)
  · exact (C6_publish_contract dbW "S1" pubW userS1 (by decide)).2.1 invW prodW
      (by decide) (by decide)
  · exact (C6_publish_contract dbNoListing "S1" pubW userS1 (by decide)).2.2 invW
      (by decide) (by decide)

/-- C7: after a successful Distributor→Seller transfer the listing resync is
attempted before the call returns — when a listing exists its quantity is
overwritten with the new inventory quantity — and a resync failure (no
listing for the pair) is swallowed: the call still returns its success
result, the committed stock movement stands, and only the listing table is
left untouched. -/
theorem C7_resync_best_effort (db : DB) (bid : Nat) (q : Int) (dn sn : String)
    (su : User) (r : SellerOrderResult) (db' : DB)
    (hu : findUser db sn = some su)
    (h : process_seller_order db bid q dn sn = .ok (r, db')) :
    (findProductForSale db su.id bid = none →
      db'.products_for_sale = db.products_for_sale ∧
      distStockOf db' dn bid = distStockOf db dn bid - q ∧
      sellerInvOf db' sn bid = sellerInvOf db sn bid + q) ∧
    (∀ prod, findProductForSale db su.id bid = some prod →
      (findProductForSale db' su.id bid).map (fun p => p.quantity)
        = some (sellerInvOf db sn bid + q)) := by
  constructor
  · intro hnp
    obtain ⟨h1, h2⟩ := process_seller_order_conserves h
    exact ⟨process_seller_order_no_listing hu hnp h, h1, h2⟩
  · intro prod hl
    exact process_seller_order_resync_quantity hu hl h

theorem C7_resync_best_effort_witness :
    ((findProductForSale dbNoListing userS1.id 1 = none →
      (applyOp dbNoListing (.distributorTransfer 1 3 "D1" "S1")).products_for_sale
          = dbNoListing.products_for_sale ∧
      distStockOf (applyOp dbNoListing (.distributorTransfer 1 3 "D1" "S1")) "D1" 1
          = distStockOf dbNoListing "D1" 1 - 3 ∧
      sellerInvOf (applyOp dbNoListing (.distributorTransfer 1 3 "D1" "S1")) "S1" 1
          = sellerInvOf dbNoListing "S1" 1 + 3)) ∧
    ((findProductForSale dbW userS1.id 1).map (fun p => p.quantity) = some 2 →
      (findProductForSale (applyOp dbW (.distributorTransfer 1 3 "D1" "S1")) userS1.id 1).map
          (fun p => p.quantity)
        = some (sellerInvOf dbW "S1" 1 + 3)) := by
  constructor
  · exact (C7_resync_best_effort dbNoListing 1 3 "D1" "S1" userS1
      { distributor_remaining_stock := 2, seller_inventory := 5, processed_quantity := 3 }
      (applyOp dbNoListing (.distributorTransfer 1 3 "D1" "S1"))
      (by decide) (by decide)).1
  · intro _
    exact (C7_resync_best_effort dbW 1 3 "D1" "S1" userS1
      { distributor_remaining_stock := 2, seller_inventory := 5, processed_quantity := 3 }
      (applyOp dbW (.distributorTransfer 1 3 "D1" "S1"))
      (by decide) (by decide)).2 prodW (by decide)

/-! ## The end-to-end scenario fixtures -/

def dbDemo : DB :=
  { blankets := [{ id := 1, model_name := "P1", material := "wool",
                   stock := 100, production_capacity := 50 }],
    distributor_stocks := [],
    distributor_orders := [],
    seller_inventories := [],
    seller_orders := [],
    customer_orders := [],
    products_for_sale := [],
    users := [userD1, userS1] }

def demo1 : DB := applyOp dbDemo (.producerTransfer 1 30 "D1" userD1)

def demo2 : DB := applyOp demo1 (.distributorTransfer 1 20 "D1" "S1")

def pubDemo : ProductForSaleCreate := { blanket_id := 1, price := 5 }

def demo3 : DB := commitOf demo2 (create_product_for_sale demo2 "S1" pubDemo)

def demo4 : DB := applyOp demo3 (.customerTransfer 1 20 "S1" "Alice" none none)

def prodDemo : ProductForSale :=
  { seller_id := 2, blanket_id := 1, price := 5, quantity := 20,
    availability := .IN_STOCK }

def orderDemo : CustomerOrder :=
  { customer_name := "Alice", seller_name := "S1", blanket_id := 1,
    quantity := 20, status := "pending",
    total_value := some ((5 : Rat) * ((20 : Int) : Rat)) }

def resDemo : CustomerOrderResult :=
  { seller_remaining_inventory := 0, customer_order := orderDemo,
    processed_quantity := 20 }

/-- C8: the end-to-end scenario.  From a producer with 100 units: transfer
30 to D1 (producer 70, D1 30, one journal row); transferring 50 from D1 to
S1 fails with insufficient stock and changes nothing; transfer 20 (D1 10,
S1 20); publish at price 5.00 (listing quantity 20, InStock); customer
buys 20 with no provided total (success, total 100.00, S1 inventory 0,
listing resynced to 0 and OutOfStock). -/
theorem C8_scenario :
    (blanketStockOf demo1 1 = 70 ∧ distStockOf demo1 "D1" 1 = 30 ∧
      demo1.distributor_orders.length = 1) ∧
    (process_seller_order demo1 1 50 "D1" "S1"
        = .error "Insufficient distributor stock. Available: 30, Requested: 50" ∧
      applyOp demo1 (.distributorTransfer 1 50 "D1" "S1") = demo1) ∧
    (distStockOf demo2 "D1" 1 = 10 ∧ sellerInvOf demo2 "S1" 1 = 20) ∧
    (create_product_for_sale demo2 "S1" pubDemo = .ok (prodDemo, demo3) ∧
      prodDemo.quantity = 20 ∧ prodDemo.availability = .IN_STOCK ∧
      prodDemo.price = 5) ∧
    (process_customer_order demo3 1 20 "S1" "Alice" none none
        = .ok (resDemo, demo4) ∧
      resDemo.customer_order.total_value = some 100 ∧
      resDemo.seller_remaining_inventory = 0) ∧
    (sellerInvOf demo4 "S1" 1 = 0 ∧
      (findProductForSale demo4 2 1).map (fun p => p.quantity) = some 0 ∧
      (findProductForSale demo4 2 1).map (fun p => p.availability)
        = some AvailabilityStatus.OUT_OF_STOCK) := by
  refine ⟨by decide, by decide, by decide, by decide, ⟨by rfl, ?_, by rfl⟩, by decide⟩
  show some ((5 : Rat) * ((20 : Int) : Rat)) = some 100
  norm_num

/-- C9: the three read-only availability checks never mutate state, and
each successful transfer appends exactly one row to its journal while
leaving the other journals unchanged. -/
theorem C9_checks_pure_journal_once (db : DB) :
    (∀ (bid : Nat) (qr : Int), applyOp db (.producerCheck bid qr) = db) ∧
    (∀ (dn : String) (bid : Nat) (qr : Int),
      applyOp db (.distributorCheck dn bid qr) = db) ∧
    (∀ (sn : String) (bid : Nat) (qr : Int),
      applyOp db (.sellerCheck sn bid qr) = db) ∧
    (∀ (bid : Nat) (q : Int) (dn : String) (u : User)
        (r : DistributorOrderResult) (db' : DB),
      process_distributor_order db bid q dn u = .ok (r, db') →
      db'.distributor_orders.length = db.distributor_orders.length + 1 ∧
      db'.seller_orders = db.seller_orders ∧
      db'.customer_orders = db.customer_orders) ∧
    (∀ (bid : Nat) (q : Int) (dn sn : String) (r : SellerOrderResult) (db' : DB),
      process_seller_order db bid q dn sn = .ok (r, db') →
      db'.seller_orders.length = db.seller_orders.length + 1 ∧
      db'.distributor_orders = db.distributor_orders ∧
      db'.customer_orders = db.customer_orders) ∧
    (∀ (bid : Nat) (q : Int) (sn cn : String) (cu : Option User) (pt : Option Rat)
        (r : CustomerOrderResult) (db' : DB),
      process_customer_order db bid q sn cn cu pt = .ok (r, db') →
      db'.customer_orders.length = db.customer_orders.length + 1 ∧
      db'.distributor_orders = db.distributor_orders ∧
      db'.seller_orders = db.seller_orders) := by
  refine ⟨fun _ _ => rfl, fun _ _ _ => rfl, fun _ _ _ => rfl, ?_, ?_, ?_⟩
  · intro bid q dn u r db' h
    obtain ⟨h1, h2, h3⟩ := process_distributor_order_journal h
    exact ⟨by rw [h1]; simp, h2, h3⟩
  · intro bid q dn sn r db' h
    exact process_seller_order_journal h
  · intro bid q sn cn cu pt r db' h
    exact process_customer_order_journal h

theorem C9_checks_pure_journal_once_witness :
    applyOp dbW (.producerCheck 1 3) = dbW ∧
    applyOp dbW (.distributorCheck "D1" 1 3) = dbW ∧
    applyOp dbW (.sellerCheck "S1" 1 3) = dbW ∧
    ((applyOp dbW (.producerTransfer 1 4 "D1" userD1)).distributor_orders.length
        = dbW.distributor_orders.length + 1 ∧
      (applyOp dbW (.producerTransfer 1 4 "D1" userD1)).seller_orders = dbW.seller_orders ∧
      (applyOp dbW (.producerTransfer 1 4 "D1" userD1)).customer_orders
        = dbW.customer_orders) ∧
    ((applyOp dbW (.distributorTransfer 1 3 "D1" "S1")).seller_orders.length
        = dbW.seller_orders.length + 1 ∧
      (applyOp dbW (.distributorTransfer 1 3 "D1" "S1")).distributor_orders
        = dbW.distributor_orders ∧
      (applyOp dbW (.distributorTransfer 1 3 "D1" "S1")).customer_orders
        = dbW.customer_orders) ∧
    ((applyOp dbW (.customerTransfer 1 1 "S1" "Bob" none none)).customer_orders.length
        = dbW.customer_orders.length + 1 ∧
      (applyOp dbW (.customerTransfer 1 1 "S1" "Bob" none none)).distributor_orders
        = dbW.distributor_orders ∧
      (applyOp dbW (.customerTransfer 1 1 "S1" "Bob" none none)).seller_orders
        = dbW.seller_orders) := by
  refine ⟨?_, ?_, ?_, ?_, ?_, ?_⟩
  · exact (C9_checks_pure_journal_once dbW).1 1 3
  · exact (C9_checks_pure_journal_once dbW).2.1 "D1" 1 3
  · exact (C9_checks_pure_journal_once dbW).2.2.1 "S1" 1 3
  · exact (C9_checks_pure_journal_once dbW).2.2.2.1 1 4 "D1" userD1
      { manufacturer_remaining_stock := 6, distributor_stock := 9, processed_quantity := 4 }
      (applyOp dbW (.producerTransfer 1 4 "D1" userD1)) (by decide)
  · exact (C9_checks_pure_journal_once dbW).2.2.2.2.1 1 3 "D1" "S1"
      { distributor_remaining_stock := 2, seller_inventory := 5, processed_quantity := 3 }
      (applyOp dbW (.distributorTransfer 1 3 "D1" "S1")) (by decide)
  · exact (C9_checks_pure_journal_once dbW).2.2.2.2.2 1 1 "S1" "Bob" none none
      resW3 (applyOp dbW (.customerTransfer 1 1 "S1" "Bob" none none)) (by rfl)

/-- C10: publish ignores the availability supplied in the payload — the
created listing's availability is derived solely from the current inventory
quantity, whatever the caller sent. -/
theorem C10_publish_ignores_payload_availability (db : DB) (sn : String) (bid : Nat)
    (price : Rat) (a1 a2 : AvailabilityStatus) :
    create_product_for_sale db sn
        { blanket_id := bid, price := price, availability := a1 }
      = create_product_for_sale db sn
        { blanket_id := bid, price := price, availability := a2 } ∧
    (∀ seller inv p db',
      findUser db sn = some seller →
      findSellerInventory db sn bid = some inv →
      create_product_for_sale db sn
          { blanket_id := bid, price := price, availability := a1 } = .ok (p, db') →
      p.availability = (if inv.quantity > 0 then AvailabilityStatus.IN_STOCK
        else AvailabilityStatus.OUT_OF_STOCK) ∧
      (p.availability = AvailabilityStatus.IN_STOCK ↔ 0 < inv.quantity)) := by
  constructor
  · rfl
  · intro seller inv p db' hu hinv h
    unfold create_product_for_sale at h
    rw [hu, hinv] at h
    dsimp only at h
    split at h
    · exact Except.noConfusion h
    · injection h with h
      rw [Prod.mk.injEq] at h
      obtain ⟨hp, -⟩ := h
      subst hp
      constructor
      · rfl
      · by_cases hq0 : 0 < inv.quantity <;> simp [hq0]

theorem C10_publish_ignores_payload_availability_witness :
    create_product_for_sale dbNoListing "S1"
        { blanket_id := 1, price := 7, availability := .OUT_OF_STOCK }
      = create_product_for_sale dbNoListing "S1"
        { blanket_id := 1, price := 7, availability := .IN_STOCK } ∧
    ((match create_product_for_sale dbNoListing "S1"
          { blanket_id := 1, price := 7, availability := .OUT_OF_STOCK } with
      | .ok (p, _) => some p.availability
      | .error _ => none) = some AvailabilityStatus.IN_STOCK) := by
  constructor
  · exact (C10_publish_ignores_payload_availability dbNoListing "S1" 1 7
      AvailabilityStatus.OUT_OF_STOCK AvailabilityStatus.IN_STOCK).1
  · cases hc : create_product_for_sale dbNoListing "S1"
        { blanket_id := 1, price := 7, availability := .OUT_OF_STOCK } with
    | ok pdb =>
      have h := (C10_publish_ignores_payload_availability dbNoListing "S1" 1 7
        AvailabilityStatus.OUT_OF_STOCK AvailabilityStatus.IN_STOCK).2
        userS1 invW pdb.1 pdb.2 (by decide) (by decide) (by rw [hc])
      simp [h.1, invW]
    | error e =>
      have hok : (match create_product_for_sale dbNoListing "S1"
          { blanket_id := 1, price := 7, availability := .OUT_OF_STOCK } with
        | .ok _ => true
        | .error _ => false) = true := by decide
      rw [hc] at hok
      exact absurd hok (by simp)
